import Mathlib

/-!
Shallow embedding of the csv_handler_tool request handler (src/backend_v2.py).

The backend exposes four FastAPI endpoints over a pandas DataFrame parsed
from uploaded CSV bytes:
  * csv_overview    (lines 12-40)
  * missing_values  (lines 43-68)
  * visualize_data  (lines 72-100)
  * clean_data      (lines 106-176)

The embedding models a parsed DataFrame as a typed header (column names and
pandas-inferred dtypes, collapsed to numeric vs textual/object) together with
a list of rows, each row a list of cells; a cell is `none` for a missing value
(NaN) and `some v` otherwise.  CSV parsing itself is not modelled: endpoints
take the outcome of pd.read_csv as an `Except` value (error = the raised
parse exception), and `WellFormed` captures the invariants pd.read_csv
guarantees for any table it successfully parses (rectangular shape; numeric
columns hold only numbers; object columns hold only strings and were typed
object precisely because at least one cell held a string, so they have at
least one non-missing cell — an all-missing column is inferred float64).
-/

/-- A cell value: pandas numeric scalars are modelled as rationals, textual
scalars as strings. -/
inductive Value where
  | num (q : ℚ)
  | str (s : String)
deriving DecidableEq, Repr

/-- A cell of the table: `none` models NaN / a missing entry. -/
abbrev Cell := Option Value

/-- The pandas dtype of a column, collapsed to the two classes the backend
distinguishes (select_dtypes with number vs object/category). -/
inductive ColType where
  | numeric
  | textual
deriving DecidableEq, Repr

/-- A parsed DataFrame: named, typed columns and an ordered list of rows. -/
structure DataFrame where
  header : List (String × ColType)
  rows : List (List Cell)
deriving DecidableEq, Repr

/-- Number of columns (second component of df.shape). -/
def ncols (df : DataFrame) : Nat := df.header.length

/-- Number of rows (first component of df.shape). -/
def nrows (df : DataFrame) : Nat := df.rows.length

/-- Name of column j. -/
def nameAt (df : DataFrame) (j : Nat) : String :=
  (df.header.getD j ("", ColType.textual)).1

/-- Dtype of column j. -/
def typeAt (df : DataFrame) (j : Nat) : ColType :=
  (df.header.getD j ("", ColType.textual)).2

/-- The cells of column j, top to bottom (df[col] as a Series). -/
def colCells (df : DataFrame) (j : Nat) : List Cell :=
  df.rows.map (fun r => r.getD j none)

/-- A cell admissible in a numeric (float/int) column: a number or NaN. -/
def cellNumOk : Cell → Bool
  | none => true
  | some (Value.num _) => true
  | some (Value.str _) => false

/-- A cell admissible in an object column: a string or NaN. -/
def cellStrOk : Cell → Bool
  | none => true
  | some (Value.str _) => true
  | some (Value.num _) => false

/-- Invariants pd.read_csv guarantees for every table it parses: rows are
rectangular, numeric columns hold numbers, object columns hold strings and
contain at least one non-missing cell (pandas infers float64, not object,
for an all-missing column). -/
def WellFormed (df : DataFrame) : Prop :=
  (∀ r ∈ df.rows, r.length = df.header.length) ∧
  ∀ j, j < df.header.length →
    (typeAt df j = ColType.numeric →
      ∀ r ∈ df.rows, cellNumOk (r.getD j none) = true) ∧
    (typeAt df j = ColType.textual →
      (∀ r ∈ df.rows, cellStrOk (r.getD j none) = true) ∧
      ∃ r ∈ df.rows, (r.getD j none).isSome = true)

instance (df : DataFrame) : Decidable (WellFormed df) := by
  unfold WellFormed
  infer_instance

/-- Count of missing entries in column j (df.isnull().sum() for one column,
backend_v2.py line 50). -/
def missingCountAt (df : DataFrame) (j : Nat) : Nat :=
  (colCells df j).countP Option.isNone

/-- Total number of missing cells in the table. -/
def missingTotal (df : DataFrame) : Nat :=
  (df.rows.map (fun r => r.countP Option.isNone)).sum

/-!
Endpoint missing_values (backend_v2.py lines 43-68):
  missing_data = df.isnull().sum()
  missing_columns = missing_data[missing_data > 0]
  missing_values_count = missing_columns.to_dict()
  response = { missing_values_count, missing_data_distribution = missing_columns.to_dict() }
The dict is modelled as an association list in column order.
-/

/-- The mapping from column name to missing count, restricted to columns with
a nonzero count (missing_columns.to_dict(), lines 50-56). -/
def missing_values_count (df : DataFrame) : List (String × Nat) :=
  (List.range df.header.length).filterMap (fun j =>
    if 0 < missingCountAt df j then some (nameAt df j, missingCountAt df j) else none)

/-- The missing_values endpoint response: the missing_values_count field and
the missing_data_distribution field (lines 59-62). -/
def missing_values (df : DataFrame) :
    List (String × Nat) × List (String × Nat) :=
  (missing_values_count df, missing_values_count df)

/-!
Endpoint csv_overview (backend_v2.py lines 12-40):
  num_rows, num_columns = df.shape
  numeric_summary = df.describe().to_dict()
  column_types = df.dtypes...to_dict()
  columns = df.columns.tolist()
df.describe() with default arguments summarises the numeric columns with
count/mean/std/min/25%/50%/75%/max; when the frame has no numeric column at
all, pandas falls back to describing every (object) column with
count/unique/top/freq instead.  Only the column coverage and the statistic
names of the summary are modelled; the numeric statistic values themselves
are not needed by any claim.
-/

/-- Overview response (backend_v2.py lines 28-34): the numeric_summary is
represented by the columns it covers and the statistic row labels it holds. -/
structure OverviewResult where
  num_rows : Nat
  num_columns : Nat
  numeric_summary_columns : List String
  numeric_summary_stats : List String
  column_types : List (String × ColType)
  columns : List String
deriving DecidableEq, Repr

/-- Columns covered by df.describe(): the numeric columns, or every column
when no numeric column exists (the documented pandas default-describe
fallback to object columns). -/
def describeColumns (df : DataFrame) : List String :=
  let numerics := df.header.filter (fun p => p.2 = ColType.numeric)
  if numerics.isEmpty then df.header.map Prod.fst else numerics.map Prod.fst

/-- Statistic row labels of df.describe(): numeric descriptive statistics
when a numeric column exists, object-column statistics otherwise. -/
def describeStats (df : DataFrame) : List String :=
  let numerics := df.header.filter (fun p => p.2 = ColType.numeric)
  if numerics.isEmpty then ["count", "unique", "top", "freq"]
  else ["count", "mean", "std", "min", "25%", "50%", "75%", "max"]

/-- The csv_overview endpoint on a successfully parsed table
(backend_v2.py lines 16-36). -/
def csv_overview (df : DataFrame) : OverviewResult :=
  { num_rows := nrows df
    num_columns := ncols df
    numeric_summary_columns := describeColumns df
    numeric_summary_stats := describeStats df
    column_types := df.header
    columns := df.header.map Prod.fst }

/-!
Endpoint clean_data (backend_v2.py lines 106-176).  The uploaded bytes are
parsed (pd.read_csv, line 121; a raised parse exception is the error of the
incoming Except and is caught by the outer except at line 174, yielding a
500 JSON error).  The strategy dispatch (lines 124-161) either remediates
the frame or returns a 400 JSON validation error.  On success the frame is
written to the single shared SQLite file cleaned_data.db with
if_exists="replace" (lines 164-166) and returned as a FileResponse; the
persisted file is modelled as an `Option DataFrame` threaded through the
call.
-/

/-- An ordering on scalar values, used where pandas sorts column values
(Series.mode returns its result sorted ascending; DataFrame.groupby sorts
group keys ascending).  Within a well-formed column all values share one
class, so only the within-class comparisons are ever exercised. -/
def valLe (a b : Value) : Bool :=
  match a, b with
  | Value.num p, Value.num q => decide (p ≤ q)
  | Value.num _, Value.str _ => true
  | Value.str _, Value.num _ => false
  | Value.str s, Value.str t => decide (s ≤ t)

/-- The non-null values of a column (pandas skips NaN in mode, median,
value_counts and sum). -/
def nonNull (cells : List Cell) : List Value :=
  cells.filterMap id

/-- The numeric values of a column, skipping NaN. -/
def numsOf (cells : List Cell) : List ℚ :=
  cells.filterMap (fun c =>
    match c with
    | some (Value.num q) => some q
    | _ => none)

/-- Series.mode(): the non-null values of maximal occurrence count, as a
Series sorted ascending; empty when the column has no non-null value. -/
def seriesModeList (cells : List Cell) : List Value :=
  let vals := nonNull cells
  let labels := vals.dedup
  let maxC := (labels.map (fun l => vals.count l)).foldr max 0
  (labels.filter (fun l => vals.count l = maxC)).mergeSort valLe

/-- Series.mode()[0]: the first entry of the mode Series; `none` when the
Series is empty, in which case the [0] lookup raises KeyError. -/
def modeValue (cells : List Cell) : Option Value :=
  (seriesModeList cells).head?

/-- Series.median() for a numeric column: the middle of the sorted non-null
values, or the mean of the two middles for an even count; `none` models the
NaN median of a column with no values (fillna(NaN) is then a no-op). -/
def seriesMedian (cells : List Cell) : Option ℚ :=
  let vs := (numsOf cells).mergeSort (fun a b => decide (a ≤ b))
  match vs with
  | [] => none
  | _ :: _ =>
    if vs.length % 2 = 1 then some (vs.getD (vs.length / 2) 0)
    else some ((vs.getD (vs.length / 2 - 1) 0 + vs.getD (vs.length / 2) 0) / 2)

/-- Fill one cell from a per-column fill value: a present cell is kept, a
missing cell receives the column's fill when there is one. -/
def applyFill (f : Option Value) (c : Cell) : Cell :=
  match c with
  | some v => some v
  | none => f

/-- Per-column fill values of the Mode loop (backend_v2.py lines 144-145):
the mode for object/category columns, no fill for the rest. -/
def modeFills (df : DataFrame) : List (Option Value) :=
  (List.range df.header.length).map (fun j =>
    if typeAt df j = ColType.textual then modeValue (colCells df j) else none)

/-- True when some object column has an empty mode (all cells missing), in
which case df[column].mode()[0] raises KeyError inside the Mode loop. -/
def hasEmptyTextualMode (df : DataFrame) : Bool :=
  (List.range df.header.length).any (fun j =>
    if typeAt df j = ColType.textual then (modeValue (colCells df j)).isNone else false)

/-- The Mode branch (backend_v2.py lines 142-145): fill the missing cells of
every object/category column with that column's mode; raises (modelled as
Except.error, str(KeyError(0)) = "0") when a column's mode is empty. -/
def modeFillDF (df : DataFrame) : Except String DataFrame :=
  if hasEmptyTextualMode df then Except.error "0"
  else Except.ok
    { df with rows := df.rows.map (fun r => List.zipWith applyFill (modeFills df) r) }

/-- Per-column fill values of the Median branch (backend_v2.py lines
146-149): the median for numeric columns, no fill for the rest (and no fill
for an all-missing numeric column, whose NaN median makes fillna a no-op). -/
def medianFills (df : DataFrame) : List (Option Value) :=
  (List.range df.header.length).map (fun j =>
    if typeAt df j = ColType.numeric then
      (seriesMedian (colCells df j)).map Value.num
    else none)

/-- The Median branch: fill the missing cells of every numeric column with
that column's median. -/
def medianFillDF (df : DataFrame) : DataFrame :=
  { df with rows := df.rows.map (fun r => List.zipWith applyFill (medianFills df) r) }

/-- df.dropna() (backend_v2.py line 126): keep exactly the rows without any
missing cell, in order. -/
def dropna (df : DataFrame) : DataFrame :=
  { df with rows := df.rows.filter (fun r => r.all Option.isSome) }

/-- df.fillna(v) (backend_v2.py line 134): replace every missing cell of
every column with the one caller-supplied value. -/
def fillnaAll (v : Value) (df : DataFrame) : DataFrame :=
  { df with rows := df.rows.map (fun r => r.map (fun c => some (c.getD v))) }

/-- Response of the clean_data endpoint: either the persisted database file
(FileResponse, line 169) or a structured JSON error with an HTTP status. -/
inductive CleanResponse where
  | fileResponse (db : DataFrame)
  | jsonError (msg : String) (status : Nat)
deriving DecidableEq, Repr

/-- Validation message of backend_v2.py line 131. -/
def fillRequiredMsg : String :=
  "Fill value is required for missing value strategy \x27fill\x27."

/-- Validation message of backend_v2.py line 139. -/
def catRequiredMsg : String :=
  "Categorical fill strategy (\x27Mode\x27 or \x27Median\x27) is required."

/-- Validation message of backend_v2.py line 153. -/
def invalidCatMsg : String := "Invalid categorical fill strategy."

/-- Validation message of backend_v2.py line 159. -/
def invalidStrategyMsg : String := "Invalid missing value strategy."

/-- The clean_data endpoint (backend_v2.py lines 106-176).  `parsed` is the
outcome of pd.read_csv on the uploaded bytes; `persisted` is the current
content of the shared cleaned_data.db file, replaced on success and
untouched on every error path.  The Python `if not categorical_fill_strategy`
check treats both a missing field and an empty string as absent. -/
def clean_data (parsed : Except String DataFrame) (missing_value_strategy : String)
    (fill_value : Option String) (categorical_fill_strategy : Option String)
    (persisted : Option DataFrame) : CleanResponse × Option DataFrame :=
  match parsed with
  | Except.error e => (CleanResponse.jsonError e 500, persisted)
  | Except.ok df =>
    if missing_value_strategy = "drop" then
      (CleanResponse.fileResponse (dropna df), some (dropna df))
    else if missing_value_strategy = "fill" then
      match fill_value with
      | none => (CleanResponse.jsonError fillRequiredMsg 400, persisted)
      | some v =>
        (CleanResponse.fileResponse (fillnaAll (Value.str v) df),
         some (fillnaAll (Value.str v) df))
    else if missing_value_strategy = "fill with mode/median" then
      match categorical_fill_strategy with
      | none => (CleanResponse.jsonError catRequiredMsg 400, persisted)
      | some s =>
        if s = "" then (CleanResponse.jsonError catRequiredMsg 400, persisted)
        else if s = "Mode" then
          match modeFillDF df with
          | Except.error e => (CleanResponse.jsonError e 500, persisted)
          | Except.ok df2 => (CleanResponse.fileResponse df2, some df2)
        else if s = "Median" then
          (CleanResponse.fileResponse (medianFillDF df), some (medianFillDF df))
        else (CleanResponse.jsonError invalidCatMsg 400, persisted)
    else (CleanResponse.jsonError invalidStrategyMsg 400, persisted)

/-!
Endpoint visualize_data (backend_v2.py lines 72-100).  Unlike the other
three endpoints it has no try/except: any exception (for instance the
KeyError raised by df[col] when col is not a column of the frame) propagates
to the caller unhandled; the Except.error of the model is that propagated
exception, not a structured JSON response.  The endpoint defaults are
categorical_column="Manufacturer", numeric_column="Sales_in_thousands",
top_n=10.  The chart is modelled by its data: the bar categories with their
summed values, in bar order.
-/

/-- Index of the first column with the given name; `none` models the
KeyError raised by indexing the frame with a name it does not contain. -/
def findColIdx (df : DataFrame) (name : String) : Option Nat :=
  df.header.findIdx? (fun p => p.1 = name)

/-- df[col].value_counts().head(n).index (backend_v2.py line 82): the
distinct non-null values of the column ordered by descending occurrence
count, truncated to the first n. -/
def topCategories (cells : List Cell) (n : Nat) : List Value :=
  ((nonNull cells).dedup.mergeSort
    (fun a b => decide ((nonNull cells).count b ≤ (nonNull cells).count a))).take n

/-- df[df[col].isin(top_categories)] (backend_v2.py line 83): the rows whose
category cell holds one of the selected labels (a missing cell never
matches isin). -/
def filteredRows (df : DataFrame) (jc n : Nat) : List (List Cell) :=
  df.rows.filter (fun r =>
    match r.getD jc none with
    | some v => decide (v ∈ topCategories (colCells df jc) n)
    | none => false)

/-- The group keys of filtered_df.groupby(col) (backend_v2.py line 87):
the distinct non-null category values of the filtered rows, sorted
ascending as groupby sorts its keys. -/
def groupKeys (df : DataFrame) (jc n : Nat) : List Value :=
  (((filteredRows df jc n).map (fun r => r.getD jc none)).filterMap id).dedup.mergeSort valLe

/-- Sum of the numeric column at index jn over the given rows; missing (and
non-numeric) cells are skipped as pandas sum skips NaN. -/
def sumNum (rows : List (List Cell)) (jn : Nat) : ℚ :=
  (rows.filterMap (fun r =>
    match r.getD jn none with
    | some (Value.num q) => some q
    | _ => none)).sum

/-- groupby(col)[num].sum().sort_values(ascending=False) (backend_v2.py
line 87): one bar per group key carrying the group's sum, sorted descending
by that sum. -/
def chartOf (df : DataFrame) (jc jn n : Nat) : List (Value × ℚ) :=
  ((groupKeys df jc n).map (fun v =>
    (v, sumNum ((filteredRows df jc n).filter
      (fun r => r.getD jc none = some v)) jn))).mergeSort
    (fun a b => decide (b.2 ≤ a.2))

/-- The visualize_data endpoint (backend_v2.py lines 72-100): resolve the
two columns (raising KeyError for an unknown name, unhandled) and render
the chart data. -/
def visualize_data (df : DataFrame) (categorical_column numeric_column : String)
    (top_n : Nat) : Except String (List (Value × ℚ)) :=
  match findColIdx df categorical_column with
  | none => Except.error ("KeyError: " ++ categorical_column)
  | some jc =>
    match findColIdx df numeric_column with
    | none => Except.error ("KeyError: " ++ numeric_column)
    | some jn => Except.ok (chartOf df jc jn top_n)

/-- A parseable table with a single textual column and no numeric column. -/
def dfAllTextual : DataFrame :=
  { header := [("Manufacturer", ColType.textual)]
    rows := [[some (Value.str "Ford")], [some (Value.str "BMW")]] }

/-- A parseable table with one numeric and one textual column, used to
evaluate the claims at a concrete input. -/
def dfMixed : DataFrame :=
  { header := [("Manufacturer", ColType.textual), ("Sales_in_thousands", ColType.numeric)]
    rows := [[some (Value.str "Ford"), some (Value.num 100)],
             [some (Value.str "BMW"), none]] }

/-- A parseable table whose categorical column has exactly eight distinct
labels, used to evaluate the top-N visualization claim at a concrete
input. -/
def dfEight : DataFrame :=
  { header := [("Manufacturer", ColType.textual), ("Sales_in_thousands", ColType.numeric)]
    rows := [[some (Value.str "Ford"), some (Value.num 3)],
             [some (Value.str "Ford"), some (Value.num 4)],
             [some (Value.str "BMW"), some (Value.num 9)],
             [some (Value.str "BMW"), none],
             [some (Value.str "Audi"), some (Value.num 2)],
             [some (Value.str "Audi"), some (Value.num 2)],
             [some (Value.str "Kia"), some (Value.num 1)],
             [some (Value.str "Kia"), some (Value.num 6)],
             [some (Value.str "Fiat"), some (Value.num 5)],
             [some (Value.str "Seat"), some (Value.num 7)],
             [some (Value.str "Opel"), some (Value.num 8)],
             [some (Value.str "Mini"), some (Value.num 1)]] }

/-- A parseable table with missing cells in both a textual and a numeric
column, used to evaluate the mode-fill claims at a concrete input. -/
def dfModeEx : DataFrame :=
  { header := [("Manufacturer", ColType.textual), ("Sales_in_thousands", ColType.numeric)]
    rows := [[some (Value.str "Ford"), some (Value.num 10)],
             [none, none],
             [some (Value.str "Ford"), some (Value.num 5)],
             [some (Value.str "BMW"), none]] }

/-- Unfolding of clean_data on a successfully parsed table. -/
lemma clean_data_ok_eq (df : DataFrame) (strategy : String) (fv cfs : Option String)
    (st : Option DataFrame) :
    clean_data (Except.ok df) strategy fv cfs st =
      if strategy = "drop" then
        (CleanResponse.fileResponse (dropna df), some (dropna df))
      else if strategy = "fill" then
        match fv with
        | none => (CleanResponse.jsonError fillRequiredMsg 400, st)
        | some v =>
          (CleanResponse.fileResponse (fillnaAll (Value.str v) df),
           some (fillnaAll (Value.str v) df))
      else if strategy = "fill with mode/median" then
        match cfs with
        | none => (CleanResponse.jsonError catRequiredMsg 400, st)
        | some s =>
          if s = "" then (CleanResponse.jsonError catRequiredMsg 400, st)
          else if s = "Mode" then
            match modeFillDF df with
            | Except.error e => (CleanResponse.jsonError e 500, st)
            | Except.ok df2 => (CleanResponse.fileResponse df2, some df2)
          else if s = "Median" then
            (CleanResponse.fileResponse (medianFillDF df), some (medianFillDF df))
          else (CleanResponse.jsonError invalidCatMsg 400, st)
      else (CleanResponse.jsonError invalidStrategyMsg 400, st) := rfl

/-- Unfolding of clean_data for the mode/median strategy with a present
sub-strategy string. -/
lemma clean_data_mm_some (df : DataFrame) (fv : Option String) (s : String)
    (st : Option DataFrame) :
    clean_data (Except.ok df) "fill with mode/median" fv (some s) st =
      if s = "" then (CleanResponse.jsonError catRequiredMsg 400, st)
      else if s = "Mode" then
        match modeFillDF df with
        | Except.error e => (CleanResponse.jsonError e 500, st)
        | Except.ok df2 => (CleanResponse.fileResponse df2, some df2)
      else if s = "Median" then
        (CleanResponse.fileResponse (medianFillDF df), some (medianFillDF df))
      else (CleanResponse.jsonError invalidCatMsg 400, st) := rfl

/-- Unknown strategy on a parsed table: 400 validation error, state kept. -/
lemma clean_data_invalid_strategy (df : DataFrame) (strategy : String)
    (fv cfs : Option String) (st : Option DataFrame)
    (h1 : strategy ≠ "drop") (h2 : strategy ≠ "fill")
    (h3 : strategy ≠ "fill with mode/median") :
    clean_data (Except.ok df) strategy fv cfs st =
      (CleanResponse.jsonError invalidStrategyMsg 400, st) := by
  rw [clean_data_ok_eq, if_neg h1, if_neg h2, if_neg h3]

/-! Helper lemmas about the mode and the per-column fills. -/

lemma foldr_max_mem (l : List Nat) (h : l ≠ []) : l.foldr max 0 ∈ l := by
  induction l with
  | nil => exact absurd rfl h
  | cons x xs ih =>
    rcases eq_or_ne xs [] with rfl | hne
    · simp
    · have hmem := ih hne
      show max x (xs.foldr max 0) ∈ x :: xs
      rcases le_total (xs.foldr max 0) x with hle | hle
      · rw [max_eq_left hle]
        exact List.mem_cons_self x xs
      · rw [max_eq_right hle]
        exact List.mem_cons_of_mem x hmem

lemma le_foldr_max (l : List Nat) : ∀ x ∈ l, x ≤ l.foldr max 0 := by
  induction l with
  | nil =>
    intro x hx
    cases hx
  | cons y ys ih =>
    intro x hx
    rcases List.mem_cons.mp hx with rfl | hx2
    · exact le_max_left _ _
    · exact le_trans (ih x hx2) (le_max_right _ _)

lemma modeValue_spec (cells : List Cell) (m : Value) (h : modeValue cells = some m) :
    m ∈ nonNull cells ∧
      ∀ v ∈ nonNull cells, (nonNull cells).count v ≤ (nonNull cells).count m := by
  have hmem : m ∈ seriesModeList cells := by
    rcases hc : seriesModeList cells with _ | ⟨a, rest⟩
    · rw [modeValue, hc] at h
      cases h
    · rw [modeValue, hc] at h
      simp only [List.head?_cons, Option.some_inj] at h
      rw [← h]
      exact List.mem_cons_self _ _
  unfold seriesModeList at hmem
  have hmem2 := (List.mergeSort_perm _ valLe).subset hmem
  obtain ⟨hlab, hcnt⟩ := List.mem_filter.mp hmem2
  have hcnteq := of_decide_eq_true hcnt
  constructor
  · exact List.mem_dedup.mp hlab
  · intro v hv
    have hvl : (nonNull cells).count v ∈
        ((nonNull cells).dedup.map (fun l => (nonNull cells).count l)) :=
      List.mem_map_of_mem _ (List.mem_dedup.mpr hv)
    rw [hcnteq]
    exact le_foldr_max _ _ hvl

lemma modeValue_isSome (cells : List Cell) (h : nonNull cells ≠ []) :
    ∃ m, modeValue cells = some m := by
  have hlne : (nonNull cells).dedup ≠ [] := by
    intro h0
    exact h ((List.dedup_eq_nil _).mp h0)
  have hmapne : ((nonNull cells).dedup.map (fun l => (nonNull cells).count l)) ≠ [] := by
    intro h0
    exact hlne (List.map_eq_nil_iff.mp h0)
  obtain ⟨l0, hl0, hcnt⟩ := List.mem_map.mp (foldr_max_mem _ hmapne)
  have hfmem : l0 ∈ (nonNull cells).dedup.filter
      (fun l => (nonNull cells).count l =
        ((nonNull cells).dedup.map (fun l => (nonNull cells).count l)).foldr max 0) :=
    List.mem_filter.mpr ⟨hl0, decide_eq_true hcnt⟩
  have hne : seriesModeList cells ≠ [] := by
    intro h0
    unfold seriesModeList at h0
    have hperm := List.mergeSort_perm ((nonNull cells).dedup.filter
      (fun l => (nonNull cells).count l =
        ((nonNull cells).dedup.map (fun l => (nonNull cells).count l)).foldr max 0)) valLe
    rw [h0] at hperm
    rw [← hperm.nil_eq] at hfmem
    cases hfmem
  rcases hc : seriesModeList cells with _ | ⟨a, rest⟩
  · exact absurd hc hne
  · refine ⟨a, ?_⟩
    rw [modeValue, hc]
    rfl

lemma nonNull_colCells_ne_nil (df : DataFrame) (j : Nat)
    (h : ∃ r ∈ df.rows, (r.getD j none).isSome = true) :
    nonNull (colCells df j) ≠ [] := by
  obtain ⟨r, hr, hsome⟩ := h
  obtain ⟨v, hv⟩ := Option.isSome_iff_exists.mp hsome
  have hcmem : r.getD j none ∈ colCells df j := List.mem_map_of_mem _ hr
  have hvmem : v ∈ nonNull (colCells df j) := by
    rw [nonNull, List.mem_filterMap]
    exact ⟨r.getD j none, hcmem, hv⟩
  exact List.ne_nil_of_mem hvmem

lemma length_modeFills (df : DataFrame) : (modeFills df).length = ncols df := by
  simp [modeFills, ncols]

lemma modeFills_getD (df : DataFrame) (j : Nat) (h : j < ncols df) :
    (modeFills df).getD j none =
      if typeAt df j = ColType.textual then modeValue (colCells df j) else none := by
  unfold modeFills
  have hlen : j < ((List.range df.header.length).map (fun j =>
      if typeAt df j = ColType.textual then modeValue (colCells df j) else none)).length := by
    simpa [ncols] using h
  rw [List.getD_eq_getElem?_getD, List.getElem?_eq_getElem hlen]
  simp

lemma zipWith_applyFill_getD (fills : List (Option Value)) (r : List Cell) (j : Nat)
    (h1 : j < fills.length) (h2 : j < r.length) :
    (List.zipWith applyFill fills r).getD j none =
      applyFill (fills.getD j none) (r.getD j none) := by
  rw [List.getD_eq_getElem?_getD, List.getD_eq_getElem?_getD, List.getD_eq_getElem?_getD]
  rw [List.getElem?_zipWith, List.getElem?_eq_getElem h1, List.getElem?_eq_getElem h2]
  rfl

lemma colCells_zipWith_fills (df : DataFrame) (fills : List (Option Value))
    (hfl : fills.length = ncols df)
    (hrow : ∀ r ∈ df.rows, r.length = df.header.length) (j : Nat) (hj : j < ncols df) :
    colCells { df with rows := df.rows.map (fun r => List.zipWith applyFill fills r) } j =
      (colCells df j).map (applyFill (fills.getD j none)) := by
  show (df.rows.map (fun r => List.zipWith applyFill fills r)).map
      (fun r => r.getD j none) =
    (df.rows.map (fun r => r.getD j none)).map (applyFill (fills.getD j none))
  rw [List.map_map, List.map_map]
  apply List.map_congr_left
  intro r hr
  show (List.zipWith applyFill fills r).getD j none =
    applyFill (fills.getD j none) (r.getD j none)
  exact zipWith_applyFill_getD fills r j (hfl ▸ hj) ((hrow r hr) ▸ hj)

lemma hasEmptyTextualMode_false (df : DataFrame) (hwf : WellFormed df) :
    hasEmptyTextualMode df = false := by
  rw [hasEmptyTextualMode, List.any_eq_false]
  intro j hjr
  have hj : j < ncols df := List.mem_range.mp hjr
  by_cases ht : typeAt df j = ColType.textual
  · rw [if_pos ht]
    obtain ⟨m, hm⟩ := modeValue_isSome (colCells df j)
      (nonNull_colCells_ne_nil df j ((hwf.2 j hj).2 ht).2)
    rw [hm]
    simp
  · rw [if_neg ht]
    simp

/-! Helper lemmas about missing_values_count. -/

lemma missing_values_count_mem (df : DataFrame) (n : String) (k : Nat) :
    (n, k) ∈ missing_values_count df ↔
      ∃ j, j < ncols df ∧ nameAt df j = n ∧ missingCountAt df j = k ∧ 0 < k := by
  unfold missing_values_count
  simp only [List.mem_filterMap, List.mem_range]
  constructor
  · rintro ⟨j, hj, hcond⟩
    by_cases hpos : 0 < missingCountAt df j
    · simp only [if_pos hpos, Option.some_inj, Prod.mk.injEq] at hcond
      exact ⟨j, hj, hcond.1, hcond.2, hcond.2 ▸ hpos⟩
    · simp [if_neg hpos] at hcond
  · rintro ⟨j, hj, hn, hk, hpos⟩
    refine ⟨j, hj, ?_⟩
    rw [if_pos (hk ▸ hpos), hn, hk]

lemma missing_values_count_nil_iff (df : DataFrame) :
    missing_values_count df = [] ↔ ∀ j, j < ncols df → missingCountAt df j = 0 := by
  unfold missing_values_count
  rw [List.filterMap_eq_nil_iff]
  constructor
  · intro h j hj
    have hmem : j ∈ List.range df.header.length := List.mem_range.mpr hj
    have := h j hmem
    by_contra hne
    have hpos : 0 < missingCountAt df j := Nat.pos_of_ne_zero hne
    rw [if_pos hpos] at this
    exact Option.some_ne_none _ this
  · intro h j hjmem
    have hj : j < ncols df := List.mem_range.mp hjmem
    rw [if_neg]
    rw [h j hj]
    exact Nat.lt_irrefl 0

/-- C6: missing-value detection returns exactly the mapping from columns with
a nonzero missing count to those counts; a table with no missing values
anywhere yields the empty mapping (and no error: the endpoint is total on
parsed tables). -/
theorem C6_missing_values_exact (df : DataFrame) :
    (missing_values_count df = [] ↔ ∀ j, j < ncols df → missingCountAt df j = 0) ∧
    (∀ n k, (n, k) ∈ missing_values_count df ↔
      ∃ j, j < ncols df ∧ nameAt df j = n ∧ missingCountAt df j = k ∧ 0 < k) :=
  ⟨missing_values_count_nil_iff df, fun n k => missing_values_count_mem df n k⟩

/-- C10: the two fields of the missing_values response are the same mapping;
the distribution field carries no information beyond the count field (both
are missing_columns.to_dict(), backend_v2.py lines 56-62). -/
theorem C10_distribution_equals_count (df : DataFrame) :
    (missing_values df).1 = (missing_values df).2 := rfl

/-- C7 counterexample: on a table whose only column is textual, the overview
summary section covers that textual column (pandas describe falls back to
object columns), so the summary does not cover numeric columns only. -/
theorem C7_counterexample :
    (csv_overview dfAllTextual).numeric_summary_columns = ["Manufacturer"] ∧
    typeAt dfAllTextual 0 = ColType.textual ∧
    (csv_overview dfAllTextual).numeric_summary_stats ≠
      ["count", "mean", "std", "min", "25%", "50%", "75%", "max"] := by
  refine ⟨rfl, rfl, ?_⟩
  decide

/-- C7 amended: the overview reports row and column counts equal to the
actual dimensions of every parsed table, and whenever the table has at least
one numeric column, the descriptive-statistics section covers exactly the
numeric columns with the count/mean/std/min/quartiles/max statistics; a
table with no numeric column instead gets the pandas object-column fallback
summary covering every column. -/
theorem C7_overview_dimensions_and_summary (df : DataFrame) :
    (csv_overview df).num_rows = nrows df ∧
    (csv_overview df).num_columns = ncols df ∧
    ((∃ p ∈ df.header, p.2 = ColType.numeric) →
      (csv_overview df).numeric_summary_columns =
        (df.header.filter (fun p => p.2 = ColType.numeric)).map Prod.fst ∧
      (csv_overview df).numeric_summary_stats =
        ["count", "mean", "std", "min", "25%", "50%", "75%", "max"]) := by
  refine ⟨rfl, rfl, fun hnum => ?_⟩
  have hne : ¬ (df.header.filter (fun p => p.2 = ColType.numeric)).isEmpty := by
    obtain ⟨p, hp, hty⟩ := hnum
    have hmem : p ∈ df.header.filter (fun p => p.2 = ColType.numeric) := by
      rw [List.mem_filter]
      exact ⟨hp, decide_eq_true hty⟩
    intro hempty
    rw [List.isEmpty_iff] at hempty
    rw [hempty] at hmem
    exact List.not_mem_nil p hmem
  constructor
  · show describeColumns df = _
    unfold describeColumns
    rw [if_neg hne]
  · show describeStats df = _
    unfold describeStats
    rw [if_neg hne]

/-- C7 witness: the amended overview theorem evaluated on a concrete mixed
table with one numeric column, with the numeric-column hypothesis discharged
there. -/
theorem C7_overview_witness :
    (csv_overview dfMixed).numeric_summary_columns =
      (dfMixed.header.filter (fun p => p.2 = ColType.numeric)).map Prod.fst ∧
    (csv_overview dfMixed).numeric_summary_stats =
      ["count", "mean", "std", "min", "25%", "50%", "75%", "max"] :=
  (C7_overview_dimensions_and_summary dfMixed).2.2
    ⟨("Sales_in_thousands", ColType.numeric), by decide, rfl⟩

/-- C3: cleaning a parsed table with strategy "drop" succeeds, persists the
result, and the resulting rows are exactly the original rows without any
missing cell, in original order; no surviving row has a missing cell and the
row count does not grow. -/
theorem C3_drop_rows (df : DataFrame) (fv cfs : Option String) (st : Option DataFrame) :
    clean_data (Except.ok df) "drop" fv cfs st =
      (CleanResponse.fileResponse (dropna df), some (dropna df)) ∧
    (dropna df).rows = df.rows.filter (fun r => r.all Option.isSome) ∧
    (∀ r ∈ (dropna df).rows, r.all Option.isSome = true) ∧
    (dropna df).rows.length ≤ df.rows.length := by
  refine ⟨rfl, rfl, ?_, ?_⟩
  · intro r hr
    have hr2 : r ∈ df.rows.filter (fun r => r.all Option.isSome) := hr
    exact (List.mem_filter.mp hr2).2
  · exact List.length_filter_le _ _

/-- C1: cleaning a parsed table with strategy "fill" and any supplied value
X succeeds, persists the result, leaves zero missing cells, and rewrites
each cell so that a formerly missing cell holds X while a present cell is
unchanged. -/
theorem C1_fill_literal (df : DataFrame) (X : String) (cfs : Option String)
    (st : Option DataFrame) :
    clean_data (Except.ok df) "fill" (some X) cfs st =
      (CleanResponse.fileResponse (fillnaAll (Value.str X) df),
       some (fillnaAll (Value.str X) df)) ∧
    missingTotal (fillnaAll (Value.str X) df) = 0 ∧
    List.Forall₂ (fun r r2 =>
      List.Forall₂ (fun c c2 =>
        (c = none → c2 = some (Value.str X)) ∧ ∀ v, c = some v → c2 = some v) r r2)
      df.rows (fillnaAll (Value.str X) df).rows := by
  refine ⟨rfl, ?_, ?_⟩
  · show ((df.rows.map fun r => r.map fun c => some (c.getD (Value.str X))).map
      (fun r => r.countP Option.isNone)).sum = 0
    rw [List.map_map]
    apply List.sum_eq_zero
    intro x hx
    rw [List.mem_map] at hx
    obtain ⟨r, hr, rfl⟩ := hx
    show (r.map fun c => some (c.getD (Value.str X))).countP Option.isNone = 0
    rw [List.countP_eq_zero]
    intro a ha
    rw [List.mem_map] at ha
    obtain ⟨c, hc, rfl⟩ := ha
    simp
  · show List.Forall₂ _ df.rows (df.rows.map fun r => r.map fun c => some (c.getD (Value.str X)))
    rw [List.forall₂_map_right_iff, List.forall₂_same]
    intro r hr
    rw [List.forall₂_map_right_iff, List.forall₂_same]
    intro c hc
    constructor
    · rintro rfl
      rfl
    · rintro v rfl
      rfl

/-- C4 counterexample: a request with an unknown strategy but an unparseable
file is answered with the 500 parse error, not with the client-input error
naming the strategy invalid (the endpoint parses before validating the
strategy, backend_v2.py lines 120-124). -/
theorem C4_counterexample :
    clean_data (Except.error "No columns to parse from file") "bogus" none none
      (some dfMixed) =
      (CleanResponse.jsonError "No columns to parse from file" 500, some dfMixed) ∧
    CleanResponse.jsonError "No columns to parse from file" 500 ≠
      CleanResponse.jsonError invalidStrategyMsg 400 :=
  ⟨rfl, by decide⟩

/-- C4 amended: for every request whose file parses and whose strategy name
is none of "drop", "fill", "fill with mode/median", clean_data returns the
400 client-input error naming the strategy invalid and leaves the persisted
output file untouched (when the file does not parse, the response is the
500 parse error instead, and the persisted file is again untouched). -/
theorem C4_invalid_strategy (df : DataFrame) (strategy : String) (fv cfs : Option String)
    (st : Option DataFrame) (h1 : strategy ≠ "drop") (h2 : strategy ≠ "fill")
    (h3 : strategy ≠ "fill with mode/median") :
    clean_data (Except.ok df) strategy fv cfs st =
      (CleanResponse.jsonError invalidStrategyMsg 400, st) :=
  clean_data_invalid_strategy df strategy fv cfs st h1 h2 h3

/-- C4 witness: the amended theorem at a concrete parsed table and the
concrete unknown strategy name "bogus". -/
theorem C4_invalid_strategy_witness :
    clean_data (Except.ok dfMixed) "bogus" none none none =
      (CleanResponse.jsonError invalidStrategyMsg 400, none) :=
  C4_invalid_strategy dfMixed "bogus" none none none (by decide) (by decide) (by decide)

/-- C5: every outcome of clean_data is either a success that persists the
cleaned table, a structured 400 JSON error carrying one of the four
client-input validation messages, or a structured 500 JSON error carrying
the message of an exception raised during parse or strategy application; on
every error path the persisted file is unchanged. -/
theorem C5_error_classification (parsed : Except String DataFrame) (strategy : String)
    (fv cfs : Option String) (st : Option DataFrame) :
    (∃ df2, clean_data parsed strategy fv cfs st =
      (CleanResponse.fileResponse df2, some df2)) ∨
    (∃ m, clean_data parsed strategy fv cfs st = (CleanResponse.jsonError m 400, st) ∧
      (m = fillRequiredMsg ∨ m = catRequiredMsg ∨ m = invalidCatMsg ∨
        m = invalidStrategyMsg)) ∨
    (∃ m, clean_data parsed strategy fv cfs st = (CleanResponse.jsonError m 500, st) ∧
      (parsed = Except.error m ∨
       ∃ df, parsed = Except.ok df ∧ strategy = "fill with mode/median" ∧
         cfs = some "Mode" ∧ modeFillDF df = Except.error m)) := by
  rcases parsed with e | df
  · exact Or.inr (Or.inr ⟨e, rfl, Or.inl rfl⟩)
  by_cases h1 : strategy = "drop"
  · subst h1
    exact Or.inl ⟨dropna df, rfl⟩
  by_cases h2 : strategy = "fill"
  · subst h2
    rcases fv with _ | v
    · exact Or.inr (Or.inl ⟨fillRequiredMsg, rfl, Or.inl rfl⟩)
    · exact Or.inl ⟨fillnaAll (Value.str v) df, rfl⟩
  by_cases h3 : strategy = "fill with mode/median"
  · subst h3
    rcases cfs with _ | s
    · exact Or.inr (Or.inl ⟨catRequiredMsg, rfl, Or.inr (Or.inl rfl)⟩)
    by_cases hs0 : s = ""
    · subst hs0
      exact Or.inr (Or.inl ⟨catRequiredMsg, rfl, Or.inr (Or.inl rfl)⟩)
    by_cases hsM : s = "Mode"
    · subst hsM
      rcases hmf : modeFillDF df with e2 | df2
      · refine Or.inr (Or.inr ⟨e2, ?_, Or.inr ⟨df, rfl, rfl, rfl, hmf⟩⟩)
        rw [clean_data_mm_some, if_neg hs0, if_pos rfl, hmf]
      · refine Or.inl ⟨df2, ?_⟩
        rw [clean_data_mm_some, if_neg hs0, if_pos rfl, hmf]
    by_cases hsMe : s = "Median"
    · subst hsMe
      exact Or.inl ⟨medianFillDF df, rfl⟩
    · refine Or.inr (Or.inl ⟨invalidCatMsg, ?_, Or.inr (Or.inr (Or.inl rfl))⟩)
      rw [clean_data_mm_some, if_neg hs0, if_neg hsM, if_neg hsMe]
  · exact Or.inr (Or.inl ⟨invalidStrategyMsg,
      clean_data_invalid_strategy df strategy fv cfs st h1 h2 h3,
      Or.inr (Or.inr (Or.inr rfl))⟩)

/-- C2: cleaning a parsed table with strategy "fill with mode/median" and
sub-strategy "Mode" succeeds, persists the result, leaves zero missing cells
in every textual/categorical column — each formerly missing cell now holding
that column's most frequent value — and leaves every numeric column, and in
particular its missing count, unchanged. -/
theorem C2_mode_fill (df : DataFrame) (hwf : WellFormed df) (fv : Option String)
    (st : Option DataFrame) :
    ∃ df2, modeFillDF df = Except.ok df2 ∧
      clean_data (Except.ok df) "fill with mode/median" fv (some "Mode") st =
        (CleanResponse.fileResponse df2, some df2) ∧
      (∀ j, j < ncols df → typeAt df j = ColType.textual →
        missingCountAt df2 j = 0 ∧
        ∃ m, modeValue (colCells df j) = some m ∧
          m ∈ nonNull (colCells df j) ∧
          (∀ v ∈ nonNull (colCells df j),
            (nonNull (colCells df j)).count v ≤ (nonNull (colCells df j)).count m) ∧
          colCells df2 j = (colCells df j).map (fun c => some (c.getD m))) ∧
      (∀ j, j < ncols df → typeAt df j = ColType.numeric →
        colCells df2 j = colCells df j ∧
        missingCountAt df2 j = missingCountAt df j) := by
  have hfalse := hasEmptyTextualMode_false df hwf
  have hok : modeFillDF df = Except.ok
      { df with rows := df.rows.map (fun r => List.zipWith applyFill (modeFills df) r) } := by
    rw [modeFillDF, if_neg]
    rw [hfalse]
    exact Bool.false_ne_true
  refine ⟨_, hok, ?_, ?_, ?_⟩
  · rw [clean_data_mm_some, if_neg (by decide), if_pos rfl, hok]
  · intro j hj ht
    obtain ⟨m, hm⟩ := modeValue_isSome (colCells df j)
      (nonNull_colCells_ne_nil df j ((hwf.2 j hj).2 ht).2)
    obtain ⟨hmem, hmax⟩ := modeValue_spec _ _ hm
    have hcol := colCells_zipWith_fills df (modeFills df) (length_modeFills df) hwf.1 j hj
    rw [modeFills_getD df j hj, if_pos ht, hm] at hcol
    have hcol2 : colCells
        { df with rows := df.rows.map (fun r => List.zipWith applyFill (modeFills df) r) } j =
        (colCells df j).map (fun c => some (c.getD m)) := by
      rw [hcol]
      apply List.map_congr_left
      intro c hc
      cases c <;> rfl
    refine ⟨?_, m, hm, hmem, hmax, hcol2⟩
    rw [missingCountAt, hcol2, List.countP_eq_zero]
    intro a ha
    rw [List.mem_map] at ha
    obtain ⟨c, hc, rfl⟩ := ha
    simp
  · intro j hj hn
    have ht : typeAt df j ≠ ColType.textual := by
      rw [hn]
      intro h0
      cases h0
    have hcol := colCells_zipWith_fills df (modeFills df) (length_modeFills df) hwf.1 j hj
    rw [modeFills_getD df j hj, if_neg ht] at hcol
    have hid : applyFill none = id := by
      funext c
      cases c <;> rfl
    rw [hid, List.map_id] at hcol
    exact ⟨hcol, by rw [missingCountAt, missingCountAt, hcol]⟩

lemma topCategories_nodup (cells : List Cell) (n : Nat) : (topCategories cells n).Nodup :=
  List.Nodup.sublist (List.take_sublist _ _)
    (((List.mergeSort_perm _ _).nodup_iff).mpr (List.nodup_dedup _))

lemma mem_topCategories (cells : List Cell) (n : Nat) (v : Value)
    (h : v ∈ topCategories cells n) : v ∈ nonNull cells :=
  List.mem_dedup.mp ((List.mergeSort_perm _ _).subset (List.mem_of_mem_take h))

lemma topCategories_count_le (cells : List Cell) (n : Nat) (u v : Value)
    (hu : u ∈ topCategories cells n) (hv : v ∈ nonNull cells)
    (hnv : v ∉ topCategories cells n) :
    (nonNull cells).count v ≤ (nonNull cells).count u := by
  have htrans : ∀ a b c : Value,
      decide ((nonNull cells).count b ≤ (nonNull cells).count a) = true →
      decide ((nonNull cells).count c ≤ (nonNull cells).count b) = true →
      decide ((nonNull cells).count c ≤ (nonNull cells).count a) = true := by
    intro a b c hab hbc
    exact decide_eq_true (le_trans (of_decide_eq_true hbc) (of_decide_eq_true hab))
  have htotal : ∀ a b : Value,
      (decide ((nonNull cells).count b ≤ (nonNull cells).count a) ||
       decide ((nonNull cells).count a ≤ (nonNull cells).count b)) = true := by
    intro a b
    rcases Nat.le_total ((nonNull cells).count b) ((nonNull cells).count a) with h | h
    · rw [decide_eq_true h]
      rfl
    · rw [decide_eq_true h]
      simp
  have hsorted : List.Pairwise
      (fun a b => decide ((nonNull cells).count b ≤ (nonNull cells).count a) = true)
      ((nonNull cells).dedup.mergeSort
        (fun a b => decide ((nonNull cells).count b ≤ (nonNull cells).count a))) :=
    List.sorted_mergeSort htrans htotal _
  have hsorted2 : List.Pairwise
      (fun a b => decide ((nonNull cells).count b ≤ (nonNull cells).count a) = true)
      (((nonNull cells).dedup.mergeSort
        (fun a b => decide ((nonNull cells).count b ≤ (nonNull cells).count a))).take n ++
       ((nonNull cells).dedup.mergeSort
        (fun a b => decide ((nonNull cells).count b ≤ (nonNull cells).count a))).drop n) := by
    rw [List.take_append_drop]
    exact hsorted
  have hsplit := (List.pairwise_append.mp hsorted2).2.2
  have hvS : v ∈ (nonNull cells).dedup.mergeSort
      (fun a b => decide ((nonNull cells).count b ≤ (nonNull cells).count a)) :=
    ((List.mergeSort_perm _ _).mem_iff).mpr (List.mem_dedup.mpr hv)
  have hvdrop : v ∈ ((nonNull cells).dedup.mergeSort
      (fun a b => decide ((nonNull cells).count b ≤ (nonNull cells).count a))).drop n := by
    have hsplit_mem : v ∈ ((nonNull cells).dedup.mergeSort
        (fun a b => decide ((nonNull cells).count b ≤ (nonNull cells).count a))).take n ++
        ((nonNull cells).dedup.mergeSort
        (fun a b => decide ((nonNull cells).count b ≤ (nonNull cells).count a))).drop n := by
      rw [List.take_append_drop]
      exact hvS
    rcases List.mem_append.mp hsplit_mem with h | h
    · exact absurd h hnv
    · exact h
  exact of_decide_eq_true (hsplit u hu v hvdrop)

lemma mem_groupKeys_iff (df : DataFrame) (jc n : Nat) (v : Value) :
    v ∈ groupKeys df jc n ↔ v ∈ topCategories (colCells df jc) n := by
  unfold groupKeys
  rw [(List.mergeSort_perm _ _).mem_iff, List.mem_dedup, List.mem_filterMap]
  constructor
  · rintro ⟨c, hc, hcv⟩
    rw [List.mem_map] at hc
    obtain ⟨r, hr, rfl⟩ := hc
    have hr2 : r ∈ df.rows.filter (fun r =>
        match r.getD jc none with
        | some v => decide (v ∈ topCategories (colCells df jc) n)
        | none => false) := hr
    have hpred := List.of_mem_filter hr2
    rw [show r.getD jc none = some v from hcv] at hpred
    exact of_decide_eq_true hpred
  · intro hv
    have hvv : v ∈ nonNull (colCells df jc) := mem_topCategories _ _ _ hv
    unfold nonNull colCells at hvv
    rw [List.mem_filterMap] at hvv
    obtain ⟨c, hcmem, hcv⟩ := hvv
    rw [List.mem_map] at hcmem
    obtain ⟨r, hr, rfl⟩ := hcmem
    refine ⟨r.getD jc none, ?_, hcv⟩
    rw [List.mem_map]
    refine ⟨r, ?_, rfl⟩
    unfold filteredRows
    rw [List.mem_filter]
    refine ⟨hr, ?_⟩
    rw [show r.getD jc none = some v from hcv]
    exact decide_eq_true hv

lemma groupKeys_nodup (df : DataFrame) (jc n : Nat) : (groupKeys df jc n).Nodup :=
  ((List.mergeSort_perm _ _).nodup_iff).mpr (List.nodup_dedup _)

lemma groupKeys_perm_topCategories (df : DataFrame) (jc n : Nat) :
    (groupKeys df jc n).Perm (topCategories (colCells df jc) n) :=
  (List.perm_ext_iff_of_nodup (groupKeys_nodup df jc n)
    (topCategories_nodup _ _)).mpr (mem_groupKeys_iff df jc n)

lemma filter_label_filteredRows (df : DataFrame) (jc n : Nat) (v : Value)
    (hv : v ∈ topCategories (colCells df jc) n) :
    (filteredRows df jc n).filter (fun r => r.getD jc none = some v) =
      df.rows.filter (fun r => r.getD jc none = some v) := by
  unfold filteredRows
  rw [List.filter_filter]
  apply List.filter_congr
  intro r hr
  by_cases heq : r.getD jc none = some v
  · rw [heq]
    have h1 : decide (v ∈ topCategories (colCells df jc) n) = true := decide_eq_true hv
    simp [h1]
  · have h0 : decide (r.getD jc none = some v) = false := decide_eq_false heq
    rw [h0]
    simp

lemma mem_chartOf (df : DataFrame) (jc jn n : Nat) (p : Value × ℚ) :
    p ∈ chartOf df jc jn n ↔ ∃ v ∈ groupKeys df jc n,
      p = (v, sumNum ((filteredRows df jc n).filter
        (fun r => r.getD jc none = some v)) jn) := by
  unfold chartOf
  rw [(List.mergeSort_perm _ _).mem_iff, List.mem_map]
  constructor
  · rintro ⟨v, hv, rfl⟩
    exact ⟨v, hv, rfl⟩
  · rintro ⟨v, hv, rfl⟩
    exact ⟨v, hv, rfl⟩

lemma chartOf_map_fst_perm (df : DataFrame) (jc jn n : Nat) :
    ((chartOf df jc jn n).map Prod.fst).Perm (groupKeys df jc n) := by
  have heq : ((groupKeys df jc n).map (fun v =>
      (v, sumNum ((filteredRows df jc n).filter
        (fun r => r.getD jc none = some v)) jn))).map Prod.fst = groupKeys df jc n := by
    rw [List.map_map]
    exact List.map_id' _
  have h := (List.mergeSort_perm ((groupKeys df jc n).map (fun v =>
      (v, sumNum ((filteredRows df jc n).filter
        (fun r => r.getD jc none = some v)) jn)))
      (fun a b => decide (b.2 ≤ a.2))).map Prod.fst
  rw [heq] at h
  exact h

/-- C2 witness: the mode-fill theorem evaluated on a concrete table with
missing cells in both a textual and a numeric column, the well-formedness
hypothesis discharged there. -/
theorem C2_mode_fill_witness :
    WellFormed dfModeEx ∧
    (∃ df2, modeFillDF dfModeEx = Except.ok df2 ∧
      clean_data (Except.ok dfModeEx) "fill with mode/median" none (some "Mode") none =
        (CleanResponse.fileResponse df2, some df2) ∧
      (∀ j, j < ncols dfModeEx → typeAt dfModeEx j = ColType.textual →
        missingCountAt df2 j = 0 ∧
        ∃ m, modeValue (colCells dfModeEx j) = some m ∧
          m ∈ nonNull (colCells dfModeEx j) ∧
          (∀ v ∈ nonNull (colCells dfModeEx j),
            (nonNull (colCells dfModeEx j)).count v ≤
              (nonNull (colCells dfModeEx j)).count m) ∧
          colCells df2 j = (colCells dfModeEx j).map (fun c => some (c.getD m))) ∧
      (∀ j, j < ncols dfModeEx → typeAt dfModeEx j = ColType.numeric →
        colCells df2 j = colCells dfModeEx j ∧
        missingCountAt df2 j = missingCountAt dfModeEx j)) :=
  ⟨by decide, C2_mode_fill dfModeEx (by decide) none none⟩

/-- C8: when both named columns exist, the visualization charts exactly the
top-n most frequent category labels (all of them when fewer than n
distinct labels exist): the chart has min n (number of distinct labels)
bars with pairwise distinct labels drawn from the column, every label left
out of the chart occurs at most as often as every charted label, each bar
carries the sum of the numeric column over that label's rows, and the bars
are ordered descending by that sum. -/
theorem C8_top_categories (df : DataFrame) (catCol numCol : String) (jc jn n : Nat)
    (hc : findColIdx df catCol = some jc) (hnum : findColIdx df numCol = some jn) :
    visualize_data df catCol numCol n = Except.ok (chartOf df jc jn n) ∧
    (chartOf df jc jn n).length = min n (nonNull (colCells df jc)).dedup.length ∧
    ((chartOf df jc jn n).map Prod.fst).Nodup ∧
    (∀ p ∈ chartOf df jc jn n, p.1 ∈ nonNull (colCells df jc)) ∧
    (∀ p ∈ chartOf df jc jn n, ∀ v ∈ nonNull (colCells df jc),
      v ∉ (chartOf df jc jn n).map Prod.fst →
      (nonNull (colCells df jc)).count v ≤ (nonNull (colCells df jc)).count p.1) ∧
    (∀ p ∈ chartOf df jc jn n,
      p.2 = sumNum (df.rows.filter (fun r => r.getD jc none = some p.1)) jn) ∧
    List.Pairwise (fun a b : Value × ℚ => b.2 ≤ a.2) (chartOf df jc jn n) := by
  refine ⟨?_, ?_, ?_, ?_, ?_, ?_, ?_⟩
  · unfold visualize_data
    rw [hc, hnum]
  · have h1 : (chartOf df jc jn n).length = (groupKeys df jc n).length := by
      unfold chartOf
      rw [(List.mergeSort_perm _ _).length_eq, List.length_map]
    rw [h1, (groupKeys_perm_topCategories df jc n).length_eq]
    unfold topCategories
    rw [List.length_take, (List.mergeSort_perm _ _).length_eq]
  · exact ((chartOf_map_fst_perm df jc jn n).nodup_iff).mpr (groupKeys_nodup df jc n)
  · intro p hp
    obtain ⟨v, hv, rfl⟩ := (mem_chartOf df jc jn n p).mp hp
    exact mem_topCategories _ _ _ ((mem_groupKeys_iff df jc n v).mp hv)
  · intro p hp v hvv hnv
    obtain ⟨u, hu, rfl⟩ := (mem_chartOf df jc jn n _).mp hp
    have hu2 : u ∈ topCategories (colCells df jc) n := (mem_groupKeys_iff df jc n u).mp hu
    have hnv2 : v ∉ topCategories (colCells df jc) n := by
      intro hvt
      apply hnv
      rw [(chartOf_map_fst_perm df jc jn n).mem_iff, mem_groupKeys_iff]
      exact hvt
    exact topCategories_count_le _ n u v hu2 hvv hnv2
  · intro p hp
    obtain ⟨v, hv, rfl⟩ := (mem_chartOf df jc jn n p).mp hp
    show sumNum ((filteredRows df jc n).filter (fun r => r.getD jc none = some v)) jn =
      sumNum (df.rows.filter (fun r => r.getD jc none = some v)) jn
    rw [filter_label_filteredRows df jc n v ((mem_groupKeys_iff df jc n v).mp hv)]
  · have htrans : ∀ a b c : Value × ℚ, decide (b.2 ≤ a.2) = true →
        decide (c.2 ≤ b.2) = true → decide (c.2 ≤ a.2) = true := by
      intro a b c hab hbc
      exact decide_eq_true (le_trans (of_decide_eq_true hbc) (of_decide_eq_true hab))
    have htotal : ∀ a b : Value × ℚ,
        (decide (b.2 ≤ a.2) || decide (a.2 ≤ b.2)) = true := by
      intro a b
      rcases le_total b.2 a.2 with h | h
      · rw [decide_eq_true h]
        rfl
      · rw [decide_eq_true h]
        simp
    have hpair : List.Pairwise (fun a b : Value × ℚ => decide (b.2 ≤ a.2) = true)
        (chartOf df jc jn n) := List.sorted_mergeSort htrans htotal _
    exact hpair.imp (fun hab => of_decide_eq_true hab)

/-- C8 witness: the top-N theorem evaluated at top_n = 5 on a concrete
table whose categorical column has eight distinct labels; the chart has
exactly five bars. -/
theorem C8_top_categories_witness :
    visualize_data dfEight "Manufacturer" "Sales_in_thousands" 5 =
      Except.ok (chartOf dfEight 0 1 5) ∧
    (chartOf dfEight 0 1 5).length = 5 := by
  have h := C8_top_categories dfEight "Manufacturer" "Sales_in_thousands" 0 1 5 rfl rfl
  refine ⟨h.1, ?_⟩
  rw [h.2.1]
  decide

/-- C9: the visualization endpoint does not validate its column parameters:
naming a column that is not in the table makes the df[col] lookup raise an
unhandled KeyError, which propagates to the caller instead of any
structured JSON error response (the endpoint body has no try/except, unlike
the other three endpoints whose models return a structured error value). -/
theorem C9_unvalidated_column :
    visualize_data dfMixed "Model" "Sales_in_thousands" 10 =
      Except.error "KeyError: Model" := rfl
